import Mathlib

/-!
Verification of the SDMX-REST data query builder (`pysdmx/api/qb/data.py`).

The module under study renders an immutable `DataQuery` record into a
SDMX-REST URL for a selected API version, after validating that the
requested option combination is legal for that version.  Everything is
pure: the result is either a URL string or a structured `ClientError`
with an HTTP-like status code.  We embed the module shallowly: Python
string formatting becomes explicit `String` concatenation, `raise`
becomes `Except.error`, and the sequential statements of each method are
replicated in order.

The module imports a few names (`ApiVersion`, `REST_ALL`,
`check_multiple_data_context`, `ClientError`) from files that are not
part of the sources at hand; those are modelled from the specification
(see the individual doc comments).
-/

/-- Modelled from the spec: `ApiVersion` (from `pysdmx.api.qb.util`, not in
the sources) is an ordered enumeration of the supported SDMX-REST API
versions, v1.0.0 through v2.x.y; comparisons are ordinal. -/
inductive ApiVersion where
  | V1_0_0
  | V1_0_1
  | V1_0_2
  | V1_1_0
  | V1_2_0
  | V1_3_0
  | V1_4_0
  | V1_5_0
  | V2_0_0
  | V2_1_0
  | V2_2_0
deriving DecidableEq

/-- Ordinal rank of an API version, used for the ordering. -/
def ApiVersion.toNat : ApiVersion → Nat
  | .V1_0_0 => 0
  | .V1_0_1 => 1
  | .V1_0_2 => 2
  | .V1_1_0 => 3
  | .V1_2_0 => 4
  | .V1_3_0 => 5
  | .V1_4_0 => 6
  | .V1_5_0 => 7
  | .V2_0_0 => 8
  | .V2_1_0 => 9
  | .V2_2_0 => 10

instance : LT ApiVersion := ⟨fun a b => a.toNat < b.toNat⟩

instance : LE ApiVersion := ⟨fun a b => a.toNat ≤ b.toNat⟩

instance (a b : ApiVersion) : Decidable (a < b) :=
  inferInstanceAs (Decidable (a.toNat < b.toNat))

instance (a b : ApiVersion) : Decidable (a ≤ b) :=
  inferInstanceAs (Decidable (a.toNat ≤ b.toNat))

/-- Modelled from the spec: the `value` of each `ApiVersion` enum member
(the version number as displayed in error messages). -/
def ApiVersion.value : ApiVersion → String
  | .V1_0_0 => "1.0.0"
  | .V1_0_1 => "1.0.1"
  | .V1_0_2 => "1.0.2"
  | .V1_1_0 => "1.1.0"
  | .V1_2_0 => "1.2.0"
  | .V1_3_0 => "1.3.0"
  | .V1_4_0 => "1.4.0"
  | .V1_5_0 => "1.5.0"
  | .V2_0_0 => "2.0.0"
  | .V2_1_0 => "2.1.0"
  | .V2_2_0 => "2.2.0"

/-- Modelled from the spec: `REST_ALL` (from `pysdmx.api.qb.util`, not in
the sources) is the symbolic wildcard token used as the default for most
query fields. -/
def REST_ALL : String := "*"

/-- Modelled from the spec: `ClientError` (from `pysdmx.errors`, not in
the sources) is a structured client error carrying a numeric status
code, a short title and a descriptive message.  The source sometimes
passes a 1-tuple as the message; we model the tuple by its sole
element. -/
structure ClientError where
  status : Nat
  title : String
  description : String
deriving DecidableEq

/-- A Python value of type `Union[str, Sequence[str]]`: either a single
string or a sequence of strings. -/
inductive StrOrSeq where
  | str (s : String)
  | seq (l : List String)
deriving DecidableEq

/-- Python `repr`-style rendering used by f-string interpolation: a plain
string renders as itself, a list of strings renders as its Python list
repr (items quoted; items are assumed not to contain quote characters). -/
def pyStr : StrOrSeq → String
  | .str s => s
  | .seq l =>
      let q := String.singleton (Char.ofNat 39)
      "[" ++ String.intercalate ", " (l.map (fun s => q ++ s ++ q)) ++ "]"

/-- Python `str(b).lower()` for a boolean. -/
def pyBoolLower : Bool → String
  | true => "true"
  | false => "false"

/-- The `DataContext` enumeration of `data.py`. -/
inductive DataContext where
  | DATA_STRUCTURE
  | DATAFLOW
  | PROVISION_AGREEMENT
  | ALL
deriving DecidableEq

/-- The `value` of each `DataContext` member, as declared in `data.py`. -/
def DataContext.value : DataContext → String
  | .DATA_STRUCTURE => "datastructure"
  | .DATAFLOW => "dataflow"
  | .PROVISION_AGREEMENT => "provisionagreement"
  | .ALL => REST_ALL

/-- Python `str()` of a `DataContext` enum member (used when a context is
interpolated into an error message). -/
def DataContext.pyRepr : DataContext → String
  | .DATA_STRUCTURE => "DataContext.DATA_STRUCTURE"
  | .DATAFLOW => "DataContext.DATAFLOW"
  | .PROVISION_AGREEMENT => "DataContext.PROVISION_AGREEMENT"
  | .ALL => "DataContext.ALL"

/-- The `DataQuery` record of `data.py` with its field defaults.  The
`components` field is not embedded: it is never read by any validation
or rendering code of the module.  `updated_after` holds the
`isoformat("T", "seconds")` rendering of the datetime.  The two
observation-count fields are `int` in the source, annotated
`msgspec.Meta(gt=0)`. -/
structure DataQuery where
  context : DataContext := DataContext.ALL
  agency_id : StrOrSeq := .str REST_ALL
  resource_id : StrOrSeq := .str REST_ALL
  version : StrOrSeq := .str REST_ALL
  key : StrOrSeq := .str REST_ALL
  updated_after : Option String := none
  first_n_obs : Option Int := none
  last_n_obs : Option Int := none
  obs_dimension : Option String := none
  attributes : StrOrSeq := .str "dsd"
  measures : StrOrSeq := .str "all"
  include_history : Bool := false

/-- Python truthiness of an optional int (`None` and `0` are falsy). -/
def truthyInt : Option Int → Prop
  | some n => n ≠ 0
  | none => False

instance (o : Option Int) : Decidable (truthyInt o) := by
  cases o <;> simp [truthyInt] <;> infer_instance

/-- Python truthiness of an optional string (`None` and `""` are falsy). -/
def truthyStr : Option String → Prop
  | some s => s ≠ ""
  | none => False

instance (o : Option String) : Decidable (truthyStr o) := by
  cases o <;> simp [truthyStr] <;> infer_instance

/-- The predicate the msgspec `gt=0` bound rejects on an optional int
field: a present value that is not greater than zero. -/
def nonPositive : Option Int → Prop
  | some n => n ≤ 0
  | none => False

instance (o : Option Int) : Decidable (nonPositive o) := by
  cases o <;> simp [nonPositive] <;> infer_instance

namespace DataQuery

/-- The `validate` method: re-encodes the record through the msgspec
schema decoder.  For a well-typed record the only constraint declared in
the source that the decoder can reject is the `gt=0` bound on
`first_n_obs`/`last_n_obs`; the decoder failure is surfaced as a 422
client error.  (Pattern constraints of `NC_NAME_ID_TYPE`, declared
outside the sources, are not modelled.) -/
def validate (q : DataQuery) : Except ClientError Unit :=
  if nonPositive q.first_n_obs ∨ nonPositive q.last_n_obs then
    .error ⟨422, "Invalid Schema Query", "Expected int greater than 0"⟩
  else
    .ok ()

/-- The `__validate_context` method of `data.py`. -/
def validateContext (q : DataQuery) (version : ApiVersion) :
    Except ClientError Unit :=
  if version < ApiVersion.V2_0_0 ∧
     (q.context = DataContext.DATA_STRUCTURE ∨
      q.context = DataContext.PROVISION_AGREEMENT) then
    .error ⟨422, "Validation Error",
      q.context.pyRepr ++ " is not valid for SDMX-REST " ++
        version.value ++ "."⟩
  else
    .ok ()

end DataQuery

/-- Modelled from the spec: `check_multiple_data_context` (from
`pysdmx.api.qb.util`, not in the sources).  Per the spec, multi-valued
fields (agency/resource/version/key given as a list of more than one
value) are only permitted from v2 onward; supplying more than one value
before v2 raises the 422 validation error identifying the offending
field and version. -/
def check_multiple_data_context (field : String) (value : StrOrSeq)
    (version : ApiVersion) : Except ClientError Unit :=
  match value with
  | .seq l =>
      if version < ApiVersion.V2_0_0 ∧ 1 < l.length then
        .error ⟨422, "Validation Error",
          "More than one " ++ field ++ " is not allowed in SDMX-REST " ++
            version.value ++ "."⟩
      else
        .ok ()
  | .str _ => .ok ()

namespace DataQuery

/-- The `__check_multiple_contexts` method of `data.py`. -/
def checkMultipleContexts (q : DataQuery) (version : ApiVersion) :
    Except ClientError Unit :=
  match check_multiple_data_context "agency" q.agency_id version with
  | .error e => .error e
  | .ok _ =>
    match check_multiple_data_context "resource" q.resource_id version with
    | .error e => .error e
    | .ok _ =>
      match check_multiple_data_context "version" q.version version with
      | .error e => .error e
      | .ok _ =>
        match check_multiple_data_context "key" q.key version with
        | .error e => .error e
        | .ok _ => .ok ()

/-- The `__check_resource_id` method of `data.py`.  The Python equality
`self.resource_id == REST_ALL` holds exactly when the field is the
single string `"*"` (a list never equals a string). -/
def checkResourceId (q : DataQuery) (version : ApiVersion) :
    Except ClientError Unit :=
  if version < ApiVersion.V2_0_0 ∧ q.resource_id = .str REST_ALL then
    .error ⟨422, "Validation Error",
      "A dataflow must be provided in SDMX-REST " ++ version.value ++ "."⟩
  else
    .ok ()

/-- The `__validate_query` method of `data.py`: the four checks run in
order, the first failure being raised. -/
def validateQuery (q : DataQuery) (version : ApiVersion) :
    Except ClientError Unit :=
  match q.validate with
  | .error e => .error e
  | .ok _ =>
    match q.validateContext version with
    | .error e => .error e
    | .ok _ =>
      match q.checkMultipleContexts version with
      | .error e => .error e
      | .ok _ => q.checkResourceId version

end DataQuery

/-- The `__to_kw` method of `data.py`: before v2 the symbolic tokens are
rewritten to literal keywords. -/
def toKw (val : String) (ver : ApiVersion) : String :=
  if val = "*" ∧ ver < ApiVersion.V2_0_0 then "all"
  else if val = "~" ∧ ver < ApiVersion.V2_0_0 then "latest"
  else val

/-- `__to_kw` as invoked on a `Union[str, Sequence[str]]` value (the
source passes such values in directly; the equality tests inside
`__to_kw` are false for a list, which therefore passes through
unchanged). -/
def toKwAny : StrOrSeq → ApiVersion → StrOrSeq
  | .str s, ver => .str (toKw s ver)
  | .seq l, _ => .seq l

/-- The `__to_kws` method of `data.py`: a single string is wrapped into a
singleton list, each element is mapped through `__to_kw`, and the result
is comma-joined. -/
def toKws : StrOrSeq → ApiVersion → String
  | .str s, ver => toKw s ver
  | .seq l, ver => String.intercalate "," (l.map (fun v => toKw v ver))

namespace DataQuery

/-- The `__get_v2_context_id` method of `data.py`. -/
def getV2ContextId (q : DataQuery) (ver : ApiVersion) : String :=
  "/" ++ q.context.value ++
    ("/" ++ toKws q.agency_id ver ++ "/" ++ toKws q.resource_id ver ++
      "/" ++ toKws q.version ver)

/-- The `__get_v1_context_id` method of `data.py`: agency, resource and
version are comma-joined into a single path segment; a wildcard version
renders as `latest`. -/
def getV1ContextId (q : DataQuery) (ver : ApiVersion) : String :=
  let a := pyStr (toKwAny q.agency_id ver)
  let r := pyStr (toKwAny q.resource_id ver)
  let v := if q.version ≠ .str REST_ALL
           then pyStr (toKwAny q.version ver)
           else "latest"
  "/" ++ a ++ "," ++ r ++ "," ++ v

/-- The `__get_short_v2_path` method of `data.py`. -/
def getShortV2Path (q : DataQuery) (ver : ApiVersion) : String :=
  let k := if q.key ≠ .str REST_ALL then "/" ++ toKws q.key ver else ""
  let v := if k ≠ "" ∨ q.version ≠ .str REST_ALL
           then "/" ++ toKws q.version ver ++ k else ""
  let r := if v ≠ "" ∨ q.resource_id ≠ .str REST_ALL
           then "/" ++ toKws q.resource_id ver ++ v else ""
  let a := if r ≠ "" ∨ q.agency_id ≠ .str REST_ALL
           then "/" ++ toKws q.agency_id ver ++ r else ""
  let c := if a ≠ "" ∨ q.context ≠ DataContext.ALL
           then "/" ++ q.context.value ++ a else ""
  "/data" ++ c

/-- The `__get_short_v2_qs` method of `data.py`: each parameter is
appended only when its field is truthy (for optional filters) or differs
from its default (for attributes/measures/history), with `&` between
parameters and a leading `?` when anything was rendered. -/
def getShortV2Qs (q : DataQuery) (ver : ApiVersion) : String :=
  let qs := ""
  let qs := match q.updated_after with
    | some u => qs ++ ("updatedAfter=" ++ u)
    | none => qs
  let qs := if truthyInt q.first_n_obs
    then (if qs ≠ "" then qs ++ "&" else qs) ++
      ("firstNObservations=" ++
        (match q.first_n_obs with | some n => toString n | none => ""))
    else qs
  let qs := if truthyInt q.last_n_obs
    then (if qs ≠ "" then qs ++ "&" else qs) ++
      ("lastNObservations=" ++
        (match q.last_n_obs with | some n => toString n | none => ""))
    else qs
  let qs := if truthyStr q.obs_dimension
    then (if qs ≠ "" then qs ++ "&" else qs) ++
      ("dimensionAtObservation=" ++ (q.obs_dimension.getD ""))
    else qs
  let qs := if q.attributes ≠ .str "dsd"
    then (if qs ≠ "" then qs ++ "&" else qs) ++
      ("attributes=" ++ toKws q.attributes ver)
    else qs
  let qs := if q.measures ≠ .str "all"
    then (if qs ≠ "" then qs ++ "&" else qs) ++
      ("measures=" ++ toKws q.measures ver)
    else qs
  let qs := if q.include_history
    then (if qs ≠ "" then qs ++ "&" else qs) ++
      ("includeHistory=" ++ pyBoolLower q.include_history)
    else qs
  if qs ≠ "" then "?" ++ qs else ""

/-- The `__get_v1_detail` method of `data.py`: the pre-v2 `detail` token
is derived from the (measures, attributes) pair; combinations outside
the table raise a 422 validation error. -/
def getV1Detail (q : DataQuery) (ver : ApiVersion) :
    Except ClientError String :=
  if (q.measures = .str "OBS_VALUE" ∨ q.measures = .str "all") ∧
     q.attributes = .str "dsd" then
    .ok "full"
  else if (q.measures = .str "OBS_VALUE" ∨ q.measures = .str "all") ∧
     q.attributes = .str "none" then
    .ok "dataonly"
  else if q.measures = .str "none" ∧ q.attributes = .str "series" then
    .ok "serieskeysonly"
  else if q.measures = .str "none" ∧ q.attributes = .str "dsd" then
    .ok "nodata"
  else
    .error ⟨422, "Validation Error",
      pyStr q.attributes ++ " and " ++ pyStr q.measures ++
        " is not a valid combination for the detail attribute in " ++
        "SDMX-REST " ++ ver.value ++ "."⟩

/-- The `__get_short_v1_qs` method of `data.py`.  Note that the detail
token is computed unconditionally (so an invalid attributes/measures
combination raises even when the token would have been omitted). -/
def getShortV1Qs (q : DataQuery) (ver : ApiVersion) :
    Except ClientError String :=
  let qs := ""
  let qs := match q.updated_after with
    | some u => qs ++ ("updatedAfter=" ++ u)
    | none => qs
  let qs := if truthyInt q.first_n_obs
    then (if qs ≠ "" then qs ++ "&" else qs) ++
      ("firstNObservations=" ++
        (match q.first_n_obs with | some n => toString n | none => ""))
    else qs
  let qs := if truthyInt q.last_n_obs
    then (if qs ≠ "" then qs ++ "&" else qs) ++
      ("lastNObservations=" ++
        (match q.last_n_obs with | some n => toString n | none => ""))
    else qs
  let qs := if truthyStr q.obs_dimension
    then (if qs ≠ "" then qs ++ "&" else qs) ++
      ("dimensionAtObservation=" ++ (q.obs_dimension.getD ""))
    else qs
  match q.getV1Detail ver with
  | .error e => .error e
  | .ok detail =>
    let qs := if detail ≠ "full"
      then (if qs ≠ "" then qs ++ "&" else qs) ++ ("detail=" ++ detail)
      else qs
    let qs := if q.include_history
      then (if qs ≠ "" then qs ++ "&" else qs) ++
        ("includeHistory=" ++ pyBoolLower q.include_history)
      else qs
    .ok (if qs ≠ "" then "?" ++ qs else "")

/-- The `__get_short_v1_path` method of `data.py`.  Note that the key is
interpolated verbatim (`f"/{self.key}"`), without `__to_kw`. -/
def getShortV1Path (q : DataQuery) (ver : ApiVersion) : String :=
  let v := if q.version ≠ .str REST_ALL
           then "," ++ pyStr (toKwAny q.version ver) else ""
  let r := if v ≠ "" ∨ q.resource_id ≠ .str REST_ALL
           then pyStr (toKwAny q.resource_id ver) ++ v else ""
  let a := if q.agency_id ≠ .str REST_ALL ∨ q.version ≠ .str REST_ALL
           then pyStr (toKwAny q.agency_id ver) ++ "," ++ r
           else r
  let k := if q.key ≠ .str REST_ALL then "/" ++ pyStr q.key else ""
  if a ≠ "" then "/data/" ++ a ++ k
  else if k ≠ "" ∧ a = "" then "/data/all,all,latest" ++ k
  else ""

/-- The `__create_full_query` method of `data.py`. -/
def createFullQuery (q : DataQuery) (ver : ApiVersion) :
    Except ClientError String :=
  let c := if ApiVersion.V2_0_0 ≤ ver
           then q.getV2ContextId ver
           else q.getV1ContextId ver
  let o := "/data" ++ c ++ "/" ++ toKws q.key ver ++ "?"
  let qs := ""
  let qs := match q.updated_after with
    | some u => qs ++ ("updatedAfter=" ++ u)
    | none => qs
  let qs := if truthyInt q.first_n_obs
    then (if qs ≠ "" then qs ++ "&" else qs) ++
      ("firstNObservations=" ++
        (match q.first_n_obs with | some n => toString n | none => ""))
    else qs
  let qs := if truthyInt q.last_n_obs
    then (if qs ≠ "" then qs ++ "&" else qs) ++
      ("lastNObservations=" ++
        (match q.last_n_obs with | some n => toString n | none => ""))
    else qs
  let qs := if truthyStr q.obs_dimension
    then (if qs ≠ "" then qs ++ "&" else qs) ++
      ("dimensionAtObservation=" ++ (q.obs_dimension.getD ""))
    else qs
  if ApiVersion.V2_0_0 ≤ ver then
    let qs := (if qs ≠ "" then qs ++ "&" else qs) ++
      ("attributes=" ++ toKws q.attributes ver ++ "&measures=" ++
        toKws q.measures ver)
    .ok (o ++ qs ++ "&includeHistory=" ++ pyBoolLower q.include_history)
  else
    match q.getV1Detail ver with
    | .error e => .error e
    | .ok d =>
      let qs := (if qs ≠ "" then qs ++ "&" else qs) ++ ("detail=" ++ d)
      .ok (o ++ qs ++ "&includeHistory=" ++ pyBoolLower q.include_history)

/-- The `__create_short_query` method of `data.py`. -/
def createShortQuery (q : DataQuery) (ver : ApiVersion) :
    Except ClientError String :=
  if ApiVersion.V2_0_0 ≤ ver then
    .ok (q.getShortV2Path ver ++ q.getShortV2Qs ver)
  else
    match q.getShortV1Qs ver with
    | .error e => .error e
    | .ok qstr => .ok (q.getShortV1Path ver ++ qstr)

/-- The `get_url` method of `data.py`: validate, then render in full or
short mode. -/
def get_url (q : DataQuery) (version : ApiVersion) (omit_defaults : Bool) :
    Except ClientError String :=
  match q.validateQuery version with
  | .error e => .error e
  | .ok _ =>
    if omit_defaults then q.createShortQuery version
    else q.createFullQuery version

end DataQuery

/-- A well-formed validation failure: status 422, a non-empty title and a
non-empty description. -/
def goodClientError (e : ClientError) : Prop :=
  e.status = 422 ∧ e.title ≠ "" ∧ e.description ≠ ""

/-- Characters of a list up to (excluding) the first occurrence of `c`. -/
def takeUntilChar (c : Char) : List Char → List Char
  | [] => []
  | x :: xs => if x = c then [] else x :: takeUntilChar c xs

/-- The characters after the last occurrence of `c` (the whole list when
`c` does not occur). -/
def lastSegmentAfter (c : Char) (l : List Char) : List Char :=
  l.foldl (fun acc x => if x = c then [] else acc ++ [x]) []

/-- Modelled from the spec: when a rendered data URL is parsed back, the
series key is the final path segment of the URL once the query string is
stripped (the segment after the context identification).  Used to
compare the key carried by two renderings of the same query. -/
def urlKeySegment (url : String) : String :=
  String.mk (lastSegmentAfter (Char.ofNat 47)
    (takeUntilChar (Char.ofNat 63) url.data))

/-! ## Helper lemmas -/

theorem ApiVersion.not_lt_of_ge {a b : ApiVersion} (h : a ≤ b) : ¬ b < a :=
  Nat.not_lt.mpr h

theorem ApiVersion.not_le_of_lt {a b : ApiVersion} (h : a < b) : ¬ b ≤ a :=
  Nat.not_le.mpr h

theorem strAppend_ne_empty_right (a b : String) (h : b ≠ "") :
    a ++ b ≠ "" := by
  intro hc
  apply h
  apply String.ext
  have hd := congrArg String.data hc
  rw [String.data_append] at hd
  have hb : b.data = [] := (List.append_eq_nil.mp hd).2
  simpa using hb

theorem strAppend_ne_empty_left (a b : String) (h : a ≠ "") :
    a ++ b ≠ "" := by
  intro hc
  apply h
  apply String.ext
  have hd := congrArg String.data hc
  rw [String.data_append] at hd
  have ha : a.data = [] := (List.append_eq_nil.mp hd).1
  simpa using ha

theorem slash_append_ne_empty (s : String) : "/" ++ s ≠ "" :=
  strAppend_ne_empty_left "/" s (by decide)

theorem validate_error_good {q : DataQuery} {e : ClientError}
    (h : q.validate = .error e) : goodClientError e := by
  unfold DataQuery.validate at h
  split at h
  · cases h
    exact ⟨rfl, by decide, by decide⟩
  · cases h

theorem validateContext_error_good {q : DataQuery} {v : ApiVersion}
    {e : ClientError} (h : q.validateContext v = .error e) :
    goodClientError e := by
  unfold DataQuery.validateContext at h
  split at h
  · cases h
    exact ⟨rfl, by show ("Validation Error" : String) ≠ ""; decide,
      strAppend_ne_empty_right _ "." (by decide)⟩
  · cases h

theorem check_multiple_error_good {f : String} {val : StrOrSeq}
    {v : ApiVersion} {e : ClientError}
    (h : check_multiple_data_context f val v = .error e) :
    goodClientError e := by
  unfold check_multiple_data_context at h
  split at h
  · split at h
    · cases h
      exact ⟨rfl, by show ("Validation Error" : String) ≠ ""; decide,
        strAppend_ne_empty_right _ "." (by decide)⟩
    · cases h
  · cases h

theorem checkMultipleContexts_error_good {q : DataQuery} {v : ApiVersion}
    {e : ClientError} (h : q.checkMultipleContexts v = .error e) :
    goodClientError e := by
  unfold DataQuery.checkMultipleContexts at h
  split at h
  · next heq => cases h; exact check_multiple_error_good heq
  · split at h
    · next heq => cases h; exact check_multiple_error_good heq
    · split at h
      · next heq => cases h; exact check_multiple_error_good heq
      · split at h
        · next heq => cases h; exact check_multiple_error_good heq
        · cases h

theorem checkResourceId_error_good {q : DataQuery} {v : ApiVersion}
    {e : ClientError} (h : q.checkResourceId v = .error e) :
    goodClientError e := by
  unfold DataQuery.checkResourceId at h
  split at h
  · cases h
    exact ⟨rfl, by show ("Validation Error" : String) ≠ ""; decide,
      strAppend_ne_empty_right _ "." (by decide)⟩
  · cases h

theorem validateQuery_error_good {q : DataQuery} {v : ApiVersion}
    {e : ClientError} (h : q.validateQuery v = .error e) :
    goodClientError e := by
  unfold DataQuery.validateQuery at h
  split at h
  · next heq => cases h; exact validate_error_good heq
  · split at h
    · next heq => cases h; exact validateContext_error_good heq
    · split at h
      · next heq => cases h; exact checkMultipleContexts_error_good heq
      · exact checkResourceId_error_good h

theorem getV1Detail_error_good {q : DataQuery} {v : ApiVersion}
    {e : ClientError} (h : q.getV1Detail v = .error e) :
    goodClientError e := by
  unfold DataQuery.getV1Detail at h
  split at h
  · cases h
  · split at h
    · cases h
    · split at h
      · cases h
      · split at h
        · cases h
        · cases h
          exact ⟨rfl, by show ("Validation Error" : String) ≠ ""; decide,
            strAppend_ne_empty_right _ "." (by decide)⟩

theorem getShortV1Qs_error_good {q : DataQuery} {v : ApiVersion}
    {e : ClientError} (h : q.getShortV1Qs v = .error e) :
    goodClientError e := by
  unfold DataQuery.getShortV1Qs at h
  rcases hd : q.getV1Detail v with e1 | d
  · rw [hd] at h
    simp only [Except.error.injEq] at h
    exact h ▸ getV1Detail_error_good hd
  · rw [hd] at h
    simp at h

theorem createFullQuery_error_good {q : DataQuery} {v : ApiVersion}
    {e : ClientError} (h : q.createFullQuery v = .error e) :
    goodClientError e := by
  unfold DataQuery.createFullQuery at h
  by_cases hv : ApiVersion.V2_0_0 ≤ v
  · rw [if_pos hv] at h
    simp at h
  · rw [if_neg hv] at h
    rcases hd : q.getV1Detail v with e1 | d
    · rw [hd] at h
      simp only [Except.error.injEq] at h
      exact h ▸ getV1Detail_error_good hd
    · rw [hd] at h
      simp at h

theorem createShortQuery_error_good {q : DataQuery} {v : ApiVersion}
    {e : ClientError} (h : q.createShortQuery v = .error e) :
    goodClientError e := by
  unfold DataQuery.createShortQuery at h
  by_cases hv : ApiVersion.V2_0_0 ≤ v
  · rw [if_pos hv] at h
    simp at h
  · rw [if_neg hv] at h
    rcases hq : q.getShortV1Qs v with e1 | s1
    · rw [hq] at h
      simp only [Except.error.injEq] at h
      exact h ▸ getShortV1Qs_error_good hq
    · rw [hq] at h
      simp at h

theorem get_url_eq_of_validateQuery_error {q : DataQuery} {v : ApiVersion}
    {e : ClientError} (h : q.validateQuery v = .error e) (od : Bool) :
    q.get_url v od = .error e := by
  unfold DataQuery.get_url
  rw [h]

theorem get_url_error_good {q : DataQuery} {v : ApiVersion} {od : Bool}
    {e : ClientError} (h : q.get_url v od = .error e) :
    goodClientError e := by
  unfold DataQuery.get_url at h
  split at h
  · next heq => cases h; exact validateQuery_error_good heq
  · split at h
    · exact createShortQuery_error_good h
    · exact createFullQuery_error_good h

theorem validateQuery_ok_parts {q : DataQuery} {v : ApiVersion}
    (h : q.validateQuery v = .ok ()) :
    q.checkMultipleContexts v = .ok () ∧ q.checkResourceId v = .ok () := by
  unfold DataQuery.validateQuery at h
  split at h
  · cases h
  · split at h
    · cases h
    · split at h
      · cases h
      · next u heq =>
          cases u
          exact ⟨heq, h⟩

theorem checkMultipleContexts_ok_parts {q : DataQuery} {v : ApiVersion}
    (h : q.checkMultipleContexts v = .ok ()) :
    check_multiple_data_context "agency" q.agency_id v = .ok () ∧
    check_multiple_data_context "resource" q.resource_id v = .ok () ∧
    check_multiple_data_context "version" q.version v = .ok () ∧
    check_multiple_data_context "key" q.key v = .ok () := by
  unfold DataQuery.checkMultipleContexts at h
  split at h
  · cases h
  · next u1 heq1 =>
    split at h
    · cases h
    · next u2 heq2 =>
      split at h
      · cases h
      · next u3 heq3 =>
        split at h
        · cases h
        · next u4 heq4 =>
            cases u1; cases u2; cases u3; cases u4
            exact ⟨heq1, heq2, heq3, heq4⟩

theorem check_multiple_ok_len {f : String} {l : List String}
    {v : ApiVersion} (h : check_multiple_data_context f (.seq l) v = .ok ())
    (hv : v < ApiVersion.V2_0_0) : l.length ≤ 1 := by
  simp only [check_multiple_data_context] at h
  split at h
  · cases h
  · next hc =>
      by_contra hl
      exact hc ⟨hv, Nat.not_le.mp hl⟩

theorem check_multiple_ok_of_ge {v : ApiVersion}
    (hv : ApiVersion.V2_0_0 ≤ v) (f : String) (val : StrOrSeq) :
    check_multiple_data_context f val v = .ok () := by
  cases val
  · simp only [check_multiple_data_context]
  · simp only [check_multiple_data_context]
    rw [if_neg]
    rintro ⟨h1, -⟩
    exact ApiVersion.not_lt_of_ge hv h1

theorem validateQuery_default_ok (v : ApiVersion)
    (hv : ¬ v < ApiVersion.V2_0_0) :
    DataQuery.validateQuery {} v = .ok () := by
  unfold DataQuery.validateQuery
  rw [show ({} : DataQuery).validate = .ok () from rfl]
  rw [show ({} : DataQuery).validateContext v = .ok () from by
    unfold DataQuery.validateContext
    rw [if_neg]
    rintro ⟨-, h | h⟩ <;> cases h]
  rw [show ({} : DataQuery).checkMultipleContexts v = .ok () from rfl]
  unfold DataQuery.checkResourceId
  rw [if_neg]
  rintro ⟨h1, -⟩
  exact hv h1

/-! ## Claim theorems -/

/-- C1 counterexample: the combination attributes=`all`, measures=`all`
(which the claim's table sends to `full`: `all` is the documented "all
attributes" token) is rejected by the code with a 422 validation error,
so the claimed four-row table is not the one the code implements. -/
theorem c1_counterexample :
    DataQuery.get_url
      { resource_id := StrOrSeq.str "CPI", attributes := StrOrSeq.str "all",
        measures := StrOrSeq.str "all" } ApiVersion.V1_5_0 false =
      Except.error ⟨422, "Validation Error",
        "all and all is not a valid combination for the detail attribute in SDMX-REST 1.5.0."⟩ ∧
    (DataQuery.getV1Detail
      { resource_id := StrOrSeq.str "CPI", attributes := StrOrSeq.str "all",
        measures := StrOrSeq.str "all" } ApiVersion.V1_5_0).isOk = false :=
  ⟨rfl, rfl⟩

/-- C1 (amended): the pre-v2 `detail` token is derived from the
(measures, attributes) pair by the code's four-row table — measures in
{`OBS_VALUE`, `all`} with attributes `dsd` gives `full`, measures in
{`OBS_VALUE`, `all`} with attributes `none` gives `dataonly`, measures
`none` with attributes `series` gives `serieskeysonly`, measures `none`
with attributes `dsd` gives `nodata` — and every (attributes, measures)
combination outside these rows raises a ClientError with status 422. -/
theorem c1_detail_table :
    ∀ (q : DataQuery) (ver : ApiVersion),
      ((q.measures = .str "OBS_VALUE" ∨ q.measures = .str "all") ∧
          q.attributes = .str "dsd" →
        q.getV1Detail ver = .ok "full") ∧
      ((q.measures = .str "OBS_VALUE" ∨ q.measures = .str "all") ∧
          q.attributes = .str "none" →
        q.getV1Detail ver = .ok "dataonly") ∧
      (q.measures = .str "none" ∧ q.attributes = .str "series" →
        q.getV1Detail ver = .ok "serieskeysonly") ∧
      (q.measures = .str "none" ∧ q.attributes = .str "dsd" →
        q.getV1Detail ver = .ok "nodata") ∧
      (¬((q.measures = .str "OBS_VALUE" ∨ q.measures = .str "all") ∧
          q.attributes = .str "dsd") →
       ¬((q.measures = .str "OBS_VALUE" ∨ q.measures = .str "all") ∧
          q.attributes = .str "none") →
       ¬(q.measures = .str "none" ∧ q.attributes = .str "series") →
       ¬(q.measures = .str "none" ∧ q.attributes = .str "dsd") →
        ∃ e, q.getV1Detail ver = .error e ∧ e.status = 422) := by
  intro q ver
  refine ⟨?_, ?_, ?_, ?_, ?_⟩
  · intro h
    unfold DataQuery.getV1Detail
    rw [if_pos h]
  · rintro ⟨hm, ha⟩
    have h1 : ¬((q.measures = .str "OBS_VALUE" ∨ q.measures = .str "all") ∧
        q.attributes = .str "dsd") := by
      rintro ⟨-, hd⟩
      rw [ha] at hd
      exact absurd hd (by decide)
    unfold DataQuery.getV1Detail
    rw [if_neg h1, if_pos ⟨hm, ha⟩]
  · rintro ⟨hm, ha⟩
    have h1 : ¬((q.measures = .str "OBS_VALUE" ∨ q.measures = .str "all") ∧
        q.attributes = .str "dsd") := by
      rintro ⟨hd | hd, -⟩ <;> (rw [hm] at hd; exact absurd hd (by decide))
    have h2 : ¬((q.measures = .str "OBS_VALUE" ∨ q.measures = .str "all") ∧
        q.attributes = .str "none") := by
      rintro ⟨hd | hd, -⟩ <;> (rw [hm] at hd; exact absurd hd (by decide))
    unfold DataQuery.getV1Detail
    rw [if_neg h1, if_neg h2, if_pos ⟨hm, ha⟩]
  · rintro ⟨hm, ha⟩
    have h1 : ¬((q.measures = .str "OBS_VALUE" ∨ q.measures = .str "all") ∧
        q.attributes = .str "dsd") := by
      rintro ⟨hd | hd, -⟩ <;> (rw [hm] at hd; exact absurd hd (by decide))
    have h2 : ¬((q.measures = .str "OBS_VALUE" ∨ q.measures = .str "all") ∧
        q.attributes = .str "none") := by
      rintro ⟨hd | hd, -⟩ <;> (rw [hm] at hd; exact absurd hd (by decide))
    have h3 : ¬(q.measures = .str "none" ∧ q.attributes = .str "series") := by
      rintro ⟨-, hd⟩
      rw [ha] at hd
      exact absurd hd (by decide)
    unfold DataQuery.getV1Detail
    rw [if_neg h1, if_neg h2, if_neg h3, if_pos ⟨hm, ha⟩]
  · intro n1 n2 n3 n4
    unfold DataQuery.getV1Detail
    rw [if_neg n1, if_neg n2, if_neg n3, if_neg n4]
    exact ⟨_, rfl, rfl⟩

/-- Witness for `c1_detail_table`: the default attributes/measures pair
maps to `full`, and the (series, all) pair is rejected with a 422. -/
theorem c1_detail_table_witness :
    DataQuery.getV1Detail { resource_id := StrOrSeq.str "CPI" }
      ApiVersion.V1_5_0 = .ok "full" ∧
    (∃ e, DataQuery.getV1Detail
      { resource_id := StrOrSeq.str "CPI",
        attributes := StrOrSeq.str "series" } ApiVersion.V1_5_0 =
        .error e ∧ e.status = 422) :=
  ⟨(c1_detail_table { resource_id := StrOrSeq.str "CPI" }
      ApiVersion.V1_5_0).1 ⟨Or.inr rfl, rfl⟩,
   (c1_detail_table
      { resource_id := StrOrSeq.str "CPI",
        attributes := StrOrSeq.str "series" }
      ApiVersion.V1_5_0).2.2.2.2 (by decide) (by decide) (by decide)
      (by decide)⟩

/-- C2 counterexample: the default-constructed query is rejected by
`get_url` for the pre-v2 version 1.5.0 with a 422 validation error (a
dataflow id is mandatory before v2), so validation of the default query
does not succeed for every supported version. -/
theorem c2_counterexample :
    DataQuery.get_url {} ApiVersion.V1_5_0 false =
      Except.error ⟨422, "Validation Error",
        "A dataflow must be provided in SDMX-REST 1.5.0."⟩ := rfl

/-- C2 (amended): the schema validation of a default-constructed
`DataQuery` never raises, and `get_url` on the default query succeeds
for every version at or after V2_0_0 (in both rendering modes); for
every version before V2_0_0 it raises a ClientError with status 422
because a dataflow id is mandatory there. -/
theorem c2_default_query :
    (({} : DataQuery).validate = Except.ok ()) ∧
    (∀ (v : ApiVersion) (od : Bool), ApiVersion.V2_0_0 ≤ v →
      ∃ s, DataQuery.get_url {} v od = Except.ok s) ∧
    (∀ (v : ApiVersion) (od : Bool), v < ApiVersion.V2_0_0 →
      ∃ e, DataQuery.get_url {} v od = Except.error e ∧ e.status = 422) := by
  refine ⟨rfl, ?_, ?_⟩
  · intro v od hv
    have hq := validateQuery_default_ok v (ApiVersion.not_lt_of_ge hv)
    cases od
    · simp only [DataQuery.get_url, hq, Bool.false_eq_true, if_false]
      unfold DataQuery.createFullQuery
      rw [if_pos hv]
      exact ⟨_, rfl⟩
    · simp only [DataQuery.get_url, hq, if_true]
      unfold DataQuery.createShortQuery
      rw [if_pos hv]
      exact ⟨_, rfl⟩
  · intro v od hv
    have hctx : ({} : DataQuery).validateContext v = Except.ok () := by
      unfold DataQuery.validateContext
      rw [if_neg]
      rintro ⟨-, h | h⟩ <;> cases h
    have hcr : ({} : DataQuery).checkResourceId v =
        Except.error ⟨422, "Validation Error",
          "A dataflow must be provided in SDMX-REST " ++ v.value ++ "."⟩ := by
      unfold DataQuery.checkResourceId
      rw [if_pos ⟨hv, rfl⟩]
    have hq : DataQuery.validateQuery {} v =
        Except.error ⟨422, "Validation Error",
          "A dataflow must be provided in SDMX-REST " ++ v.value ++ "."⟩ := by
      simp only [DataQuery.validateQuery,
        show ({} : DataQuery).validate = Except.ok () from rfl, hctx,
        show ({} : DataQuery).checkMultipleContexts v = Except.ok ()
          from rfl, hcr]
    exact ⟨_, get_url_eq_of_validateQuery_error hq od, rfl⟩

/-- Witness for `c2_default_query`: concrete instantiations at V2_0_0
(success, both modes) and V1_0_0 (422 failure). -/
theorem c2_default_query_witness :
    (∃ s, DataQuery.get_url {} ApiVersion.V2_0_0 true = Except.ok s) ∧
    (∃ s, DataQuery.get_url {} ApiVersion.V2_1_0 false = Except.ok s) ∧
    (∃ e, DataQuery.get_url {} ApiVersion.V1_0_0 false = Except.error e ∧
      e.status = 422) :=
  ⟨c2_default_query.2.1 ApiVersion.V2_0_0 true (by decide),
   c2_default_query.2.1 ApiVersion.V2_1_0 false (by decide),
   c2_default_query.2.2 ApiVersion.V1_0_0 false (by decide)⟩

/-- C7: the documented v2.0.0 full-query example renders to exactly the
URL given in the spec. -/
theorem c7_v2_full_query_example :
    DataQuery.get_url
      { context := DataContext.DATAFLOW, agency_id := StrOrSeq.str "BIS",
        resource_id := StrOrSeq.str "CPI", version := StrOrSeq.str "1.0",
        key := StrOrSeq.str "A.USD", attributes := StrOrSeq.str "dsd",
        measures := StrOrSeq.str "all" } ApiVersion.V2_0_0 false =
      Except.ok
        "/data/dataflow/BIS/CPI/1.0/A.USD?attributes=dsd&measures=all&includeHistory=false" :=
  rfl

/-- C10: for every version at or after V2_0_0, the default-constructed
query rendered with omit_defaults=true is exactly `/data`: every path
segment and every query parameter is omitted. -/
theorem c10_default_short_is_data :
    ∀ v : ApiVersion, ApiVersion.V2_0_0 ≤ v →
      DataQuery.get_url {} v true = Except.ok "/data" := by
  intro v hv
  have hq := validateQuery_default_ok v (ApiVersion.not_lt_of_ge hv)
  simp only [DataQuery.get_url, hq, if_true]
  unfold DataQuery.createShortQuery
  rw [if_pos hv]
  rfl

/-- Witness for `c10_default_short_is_data` at V2_0_0. -/
theorem c10_default_short_is_data_witness :
    DataQuery.get_url {} ApiVersion.V2_0_0 true = Except.ok "/data" :=
  c10_default_short_is_data ApiVersion.V2_0_0 (by decide)

/-- C3: before V2_0_0 a query with the wildcard resource id is rejected
by `get_url` with a 422 error; the resource-id check itself produces the
"dataflow is mandatory" message naming the version; at or after V2_0_0 a
wildcard resource id passes this check. -/
theorem c3_resource_id_rule :
    (∀ (q : DataQuery) (v : ApiVersion) (od : Bool),
      v < ApiVersion.V2_0_0 → q.resource_id = .str REST_ALL →
      ∃ e, q.get_url v od = Except.error e ∧ e.status = 422) ∧
    (∀ (q : DataQuery) (v : ApiVersion),
      v < ApiVersion.V2_0_0 → q.resource_id = .str REST_ALL →
      q.checkResourceId v = Except.error ⟨422, "Validation Error",
        "A dataflow must be provided in SDMX-REST " ++ v.value ++ "."⟩) ∧
    (∀ (q : DataQuery) (v : ApiVersion),
      ApiVersion.V2_0_0 ≤ v → q.checkResourceId v = Except.ok ()) := by
  have part2 : ∀ (q : DataQuery) (v : ApiVersion),
      v < ApiVersion.V2_0_0 → q.resource_id = .str REST_ALL →
      q.checkResourceId v = Except.error ⟨422, "Validation Error",
        "A dataflow must be provided in SDMX-REST " ++ v.value ++ "."⟩ := by
    intro q v hv hr
    unfold DataQuery.checkResourceId
    rw [if_pos ⟨hv, hr⟩]
  refine ⟨?_, part2, ?_⟩
  · intro q v od hv hr
    rcases hq : q.validateQuery v with e | u
    · exact ⟨e, get_url_eq_of_validateQuery_error hq od,
        (validateQuery_error_good hq).1⟩
    · cases u
      have hcr := (validateQuery_ok_parts hq).2
      rw [part2 q v hv hr] at hcr
      cases hcr
  · intro q v hv
    unfold DataQuery.checkResourceId
    rw [if_neg]
    rintro ⟨h1, -⟩
    exact ApiVersion.not_lt_of_ge hv h1

/-- Witness for `c3_resource_id_rule`: the default query (wildcard
resource) fails at V1_4_0 with 422 and passes the resource check at
V2_0_0. -/
theorem c3_resource_id_rule_witness :
    (∃ e, DataQuery.get_url {} ApiVersion.V1_4_0 false = Except.error e ∧
      e.status = 422) ∧
    DataQuery.checkResourceId {} ApiVersion.V2_0_0 = Except.ok () :=
  ⟨c3_resource_id_rule.1 {} ApiVersion.V1_4_0 false (by decide) rfl,
   c3_resource_id_rule.2.2 {} ApiVersion.V2_0_0 (by decide)⟩

/-- C6 (spec-modelled): before V2_0_0 a query carrying a list of more
than one value for agency, resource, version or key is rejected by
`get_url` with a 422 error; at or after V2_0_0 the multiplicity check
always passes. -/
theorem c6_multi_valued_rule :
    (∀ (q : DataQuery) (v : ApiVersion) (od : Bool) (l : List String),
      v < ApiVersion.V2_0_0 → 1 < l.length →
      (q.agency_id = .seq l ∨ q.resource_id = .seq l ∨
       q.version = .seq l ∨ q.key = .seq l) →
      ∃ e, q.get_url v od = Except.error e ∧ e.status = 422) ∧
    (∀ (q : DataQuery) (v : ApiVersion),
      ApiVersion.V2_0_0 ≤ v → q.checkMultipleContexts v = Except.ok ()) := by
  constructor
  · intro q v od l hv hl hf
    rcases hq : q.validateQuery v with e | u
    · exact ⟨e, get_url_eq_of_validateQuery_error hq od,
        (validateQuery_error_good hq).1⟩
    · cases u
      exfalso
      have hm := checkMultipleContexts_ok_parts (validateQuery_ok_parts hq).1
      rcases hf with hf | hf | hf | hf
      · have h1 := hm.1
        rw [hf] at h1
        exact absurd (check_multiple_ok_len h1 hv) (by omega)
      · have h1 := hm.2.1
        rw [hf] at h1
        exact absurd (check_multiple_ok_len h1 hv) (by omega)
      · have h1 := hm.2.2.1
        rw [hf] at h1
        exact absurd (check_multiple_ok_len h1 hv) (by omega)
      · have h1 := hm.2.2.2
        rw [hf] at h1
        exact absurd (check_multiple_ok_len h1 hv) (by omega)
  · intro q v hv
    simp only [DataQuery.checkMultipleContexts, check_multiple_ok_of_ge hv]

/-- Witness for `c6_multi_valued_rule`: a two-agency list fails pre-v2
with 422 and the multiplicity check passes at V2_0_0 for the same
query. -/
theorem c6_multi_valued_rule_witness :
    (∃ e, DataQuery.get_url
      { agency_id := StrOrSeq.seq ["BIS", "ECB"],
        resource_id := StrOrSeq.str "CPI" } ApiVersion.V1_5_0 false =
        Except.error e ∧ e.status = 422) ∧
    DataQuery.checkMultipleContexts
      { agency_id := StrOrSeq.seq ["BIS", "ECB"],
        resource_id := StrOrSeq.str "CPI" } ApiVersion.V2_0_0 =
      Except.ok () :=
  ⟨c6_multi_valued_rule.1
      { agency_id := StrOrSeq.seq ["BIS", "ECB"],
        resource_id := StrOrSeq.str "CPI" }
      ApiVersion.V1_5_0 false ["BIS", "ECB"] (by decide) (by decide)
      (Or.inl rfl),
   c6_multi_valued_rule.2
      { agency_id := StrOrSeq.seq ["BIS", "ECB"],
        resource_id := StrOrSeq.str "CPI" }
      ApiVersion.V2_0_0 (by decide)⟩

/-- C8: for every query, version and rendering mode, `get_url` either
returns a URL string or fails with a structured client error whose
status is 422 and whose title and description are non-empty; no other
outcome is possible (the computation is pure, so the failure is
necessarily produced before any network interaction). -/
theorem c8_total_and_typed :
    ∀ (q : DataQuery) (v : ApiVersion) (od : Bool),
      (∃ s, q.get_url v od = Except.ok s) ∨
      (∃ e, q.get_url v od = Except.error e ∧ e.status = 422 ∧
        e.title ≠ "" ∧ e.description ≠ "") := by
  intro q v od
  rcases h : q.get_url v od with e | s
  · exact Or.inr ⟨e, rfl, get_url_error_good h⟩
  · exact Or.inl ⟨s, rfl⟩

/-- C4: at or after V2_0_0 the full-query path starts with `/data`, then
the context kind as its own path segment, then the agency, resource and
version segments, then the key; before V2_0_0 there is no context
segment and agency, resource and version form one comma-joined
segment. -/
theorem c4_context_segment :
    (∀ (q : DataQuery) (ver : ApiVersion), ApiVersion.V2_0_0 ≤ ver →
      ∃ qs, q.createFullQuery ver =
        Except.ok ("/data" ++ "/" ++ q.context.value ++ "/" ++
          toKws q.agency_id ver ++ "/" ++ toKws q.resource_id ver ++ "/" ++
          toKws q.version ver ++ "/" ++ toKws q.key ver ++ "?" ++ qs)) ∧
    (∀ (q : DataQuery) (ver : ApiVersion) (s : String),
      ver < ApiVersion.V2_0_0 → q.createFullQuery ver = Except.ok s →
      ∃ qs, s = "/data" ++ "/" ++ pyStr (toKwAny q.agency_id ver) ++ "," ++
        pyStr (toKwAny q.resource_id ver) ++ "," ++
        (if q.version ≠ .str REST_ALL then pyStr (toKwAny q.version ver)
         else "latest") ++ "/" ++ toKws q.key ver ++ "?" ++ qs) := by
  constructor
  · intro q ver hv
    simp only [DataQuery.createFullQuery, DataQuery.getV2ContextId,
      if_pos hv, String.append_assoc]
    exact ⟨_, rfl⟩
  · intro q ver s hv h
    simp only [DataQuery.createFullQuery, DataQuery.getV1ContextId,
      if_neg (ApiVersion.not_le_of_lt hv)] at h
    rcases hd : q.getV1Detail ver with e | d
    · rw [hd] at h
      simp at h
    · rw [hd] at h
      simp only [Except.ok.injEq] at h
      subst h
      simp only [String.append_assoc]
      exact ⟨_, rfl⟩

/-- Witness for `c4_context_segment`: instantiations at V2_0_0 (context
segment present) and V1_5_0 (comma-joined segment, no context). -/
theorem c4_context_segment_witness :
    (∃ qs, DataQuery.createFullQuery
      { context := DataContext.DATAFLOW, agency_id := StrOrSeq.str "BIS",
        resource_id := StrOrSeq.str "CPI" } ApiVersion.V2_0_0 =
      Except.ok ("/data" ++ "/" ++ "dataflow" ++ "/" ++ "BIS" ++ "/" ++
        "CPI" ++ "/" ++ "*" ++ "/" ++ "*" ++ "?" ++ qs)) ∧
    (∃ qs, ("/data/all,CPI,latest/all?detail=full&includeHistory=false"
        : String) =
      "/data" ++ "/" ++ "all" ++ "," ++ "CPI" ++ "," ++
        (if (StrOrSeq.str REST_ALL : StrOrSeq) ≠ .str REST_ALL
         then pyStr (toKwAny (.str REST_ALL) ApiVersion.V1_5_0)
         else "latest") ++ "/" ++ "all" ++ "?" ++ qs) :=
  ⟨c4_context_segment.1
      { context := DataContext.DATAFLOW, agency_id := StrOrSeq.str "BIS",
        resource_id := StrOrSeq.str "CPI" } ApiVersion.V2_0_0 (by decide),
   c4_context_segment.2
      { resource_id := StrOrSeq.str "CPI" } ApiVersion.V1_5_0
      "/data/all,CPI,latest/all?detail=full&includeHistory=false"
      (by decide) rfl⟩

/-- C5 counterexample: the pre-v2 short path renders the key verbatim:
for key `~` the short query is `/data/CPI/~` although the pre-v2
keyword rewrite maps `~` to `latest`; so the `~` token is not rewritten
in every rendered path position. -/
theorem c5_counterexample :
    DataQuery.createShortQuery
      { resource_id := StrOrSeq.str "CPI", key := StrOrSeq.str "~" }
      ApiVersion.V1_5_0 = Except.ok "/data/CPI/~" ∧
    toKw "~" ApiVersion.V1_5_0 = "latest" :=
  ⟨rfl, rfl⟩

/-- The tail of `__get_short_v1_path`: when the key part is non-empty,
both reachable branches append it verbatim. -/
theorem shortV1Path_tail_append (a k : String) (hk : k ≠ "") :
    (if a ≠ "" then "/data/" ++ a ++ k
     else if k ≠ "" ∧ a = "" then "/data/all,all,latest" ++ k else "") =
    (if a ≠ "" then "/data/" ++ a else "/data/all,all,latest") ++ k := by
  by_cases ha : a ≠ ""
  · rw [if_pos ha, if_pos ha]
  · rw [if_neg ha, if_neg ha, if_pos ⟨hk, not_not.mp ha⟩]

/-- C5 (amended): before V2_0_0 the keyword rewrite maps `*` to `all`
and `~` to `latest` and leaves other values unchanged; at or after
V2_0_0 it leaves every value unchanged; however the key segment of the
pre-v2 short path is rendered verbatim, without the keyword rewrite. -/
theorem c5_keyword_rewriting :
    (∀ ver : ApiVersion, ver < ApiVersion.V2_0_0 →
      toKw "*" ver = "all" ∧ toKw "~" ver = "latest" ∧
      ∀ s : String, s ≠ "*" → s ≠ "~" → toKw s ver = s) ∧
    (∀ (ver : ApiVersion) (s : String), ApiVersion.V2_0_0 ≤ ver →
      toKw s ver = s) ∧
    (∀ (q : DataQuery) (ver : ApiVersion) (k : String),
      q.key = .str k → k ≠ REST_ALL →
      ∃ p, q.getShortV1Path ver = p ++ ("/" ++ k)) := by
  refine ⟨?_, ?_, ?_⟩
  · intro ver hv
    refine ⟨?_, ?_, ?_⟩
    · unfold toKw
      rw [if_pos ⟨rfl, hv⟩]
    · unfold toKw
      rw [if_neg (by rintro ⟨hh, -⟩; exact absurd hh (by decide)),
        if_pos ⟨rfl, hv⟩]
    · intro s h1 h2
      unfold toKw
      rw [if_neg (by rintro ⟨hh, -⟩; exact h1 hh),
        if_neg (by rintro ⟨hh, -⟩; exact h2 hh)]
  · intro ver s hv
    unfold toKw
    rw [if_neg (fun hh => ApiVersion.not_lt_of_ge hv hh.2)]
    rw [if_neg (fun hh => ApiVersion.not_lt_of_ge hv hh.2)]
  · intro q ver k hk hkne
    have hcond : (StrOrSeq.str k : StrOrSeq) ≠ .str REST_ALL := by
      intro hh
      injection hh with hh2
      exact hkne hh2
    simp only [DataQuery.getShortV1Path, hk, pyStr, if_pos hcond]
    rw [shortV1Path_tail_append]
    · exact ⟨_, rfl⟩
    · exact slash_append_ne_empty k

/-- Witness for `c5_keyword_rewriting`: concrete token rewrites and the
verbatim key segment of the `~`-key example. -/
theorem c5_keyword_rewriting_witness :
    toKw "*" ApiVersion.V1_0_0 = "all" ∧
    toKw "~" ApiVersion.V2_0_0 = "~" ∧
    (∃ p, DataQuery.getShortV1Path
      { resource_id := StrOrSeq.str "CPI", key := StrOrSeq.str "~" }
      ApiVersion.V1_5_0 = p ++ ("/" ++ "~")) :=
  ⟨(c5_keyword_rewriting.1 ApiVersion.V1_0_0 (by decide)).1,
   c5_keyword_rewriting.2.1 ApiVersion.V2_0_0 "~" (by decide),
   c5_keyword_rewriting.2.2
      { resource_id := StrOrSeq.str "CPI", key := StrOrSeq.str "~" }
      ApiVersion.V1_5_0 "~" rfl (by decide)⟩

theorem updatedAfter_ne_empty (x : String) :
    ("updatedAfter=" ++ x = "") = False :=
  eq_false (strAppend_ne_empty_left "updatedAfter=" x (by decide))

theorem strEmpty_append (s : String) : "" ++ s = s := by
  apply String.ext
  rw [String.data_append]
  rfl

/-- C9 counterexample: for the validated pre-v2 query with resource
`CPI` and key `~`, the short rendering keeps the key segment `~` while
the full rendering rewrites it to `latest`; both key segments are
explicitly present (not omitted), and they differ, so no resolution of
omitted fields to defaults can make the two URLs denote the same
query. -/
theorem c9_counterexample :
    DataQuery.get_url
      { resource_id := StrOrSeq.str "CPI", key := StrOrSeq.str "~" }
      ApiVersion.V1_5_0 true = Except.ok "/data/CPI/~" ∧
    DataQuery.get_url
      { resource_id := StrOrSeq.str "CPI", key := StrOrSeq.str "~" }
      ApiVersion.V1_5_0 false =
      Except.ok "/data/all,CPI,latest/latest?detail=full&includeHistory=false" ∧
    urlKeySegment "/data/CPI/~" = "~" ∧
    urlKeySegment
      "/data/all,CPI,latest/latest?detail=full&includeHistory=false" =
      "latest" ∧
    ("~" : String) ≠ "latest" :=
  ⟨rfl, rfl, rfl, rfl, by decide⟩

theorem slash_append_eq_empty (s : String) : ("/" ++ s = "") = False :=
  eq_false (slash_append_ne_empty s)

theorem strAppend_empty (s : String) : s ++ "" = s := by
  apply String.ext
  rw [String.data_append]
  exact List.append_nil _

theorem toKws_default_v2 {ver : ApiVersion}
    (hver : ApiVersion.V2_0_0 ≤ ver) :
    toKws (.str REST_ALL) ver = "*" := by
  simp only [toKws, toKw]
  rw [if_neg (fun h => ApiVersion.not_lt_of_ge hver h.2)]
  rw [if_neg (fun h => absurd h.1 (by decide))]
  rfl

theorem attributesTail_ne_empty (x a : String) :
    (x ++ ("attributes=" ++ a) = "") = False :=
  eq_false (strAppend_ne_empty_right x _
    (strAppend_ne_empty_left "attributes=" a (by decide)))

theorem measuresTail_ne_empty (x a : String) :
    (x ++ ("measures=" ++ a) = "") = False :=
  eq_false (strAppend_ne_empty_right x _
    (strAppend_ne_empty_left "measures=" a (by decide)))

theorem historyTail_ne_empty (x a : String) :
    (x ++ ("includeHistory=" ++ a) = "") = False :=
  eq_false (strAppend_ne_empty_right x _
    (strAppend_ne_empty_left "includeHistory=" a (by decide)))

/-- C9 (amended): at or after V2_0_0 the two renderings of a query
differ only in default-valued components.  The short path is the full
path truncated after the deepest non-default path component: every path
component down to that one is rendered identically in both modes
(defaulted components above it as the `*` placeholder), and the full
path extends the short path by exactly one `/*` segment — the
version-appropriate default rendering — per omitted trailing defaulted
component (six cases, by the deepest non-default component).  Moreover
a query whose key, attributes, measures and include-history fields are
all non-default renders to the same URL in both modes, the optional
filter parameters being treated identically by both query strings. -/
theorem c9_short_omits_defaults :
    (∀ (q : DataQuery) (ver : ApiVersion), ApiVersion.V2_0_0 ≤ ver →
      q.key ≠ .str REST_ALL →
      ∃ qs, q.createFullQuery ver =
        Except.ok (q.getShortV2Path ver ++ "?" ++ qs)) ∧
    (∀ (q : DataQuery) (ver : ApiVersion), ApiVersion.V2_0_0 ≤ ver →
      q.key = .str REST_ALL → q.version ≠ .str REST_ALL →
      ∃ qs, q.createFullQuery ver =
        Except.ok (q.getShortV2Path ver ++ "/" ++ "*" ++ "?" ++ qs)) ∧
    (∀ (q : DataQuery) (ver : ApiVersion), ApiVersion.V2_0_0 ≤ ver →
      q.key = .str REST_ALL → q.version = .str REST_ALL →
      q.resource_id ≠ .str REST_ALL →
      ∃ qs, q.createFullQuery ver =
        Except.ok (q.getShortV2Path ver ++ "/" ++ "*" ++ "/" ++ "*" ++
          "?" ++ qs)) ∧
    (∀ (q : DataQuery) (ver : ApiVersion), ApiVersion.V2_0_0 ≤ ver →
      q.key = .str REST_ALL → q.version = .str REST_ALL →
      q.resource_id = .str REST_ALL → q.agency_id ≠ .str REST_ALL →
      ∃ qs, q.createFullQuery ver =
        Except.ok (q.getShortV2Path ver ++ "/" ++ "*" ++ "/" ++ "*" ++
          "/" ++ "*" ++ "?" ++ qs)) ∧
    (∀ (q : DataQuery) (ver : ApiVersion), ApiVersion.V2_0_0 ≤ ver →
      q.key = .str REST_ALL → q.version = .str REST_ALL →
      q.resource_id = .str REST_ALL → q.agency_id = .str REST_ALL →
      q.context ≠ DataContext.ALL →
      ∃ qs, q.createFullQuery ver =
        Except.ok (q.getShortV2Path ver ++ "/" ++ "*" ++ "/" ++ "*" ++
          "/" ++ "*" ++ "/" ++ "*" ++ "?" ++ qs)) ∧
    (∀ (q : DataQuery) (ver : ApiVersion), ApiVersion.V2_0_0 ≤ ver →
      q.key = .str REST_ALL → q.version = .str REST_ALL →
      q.resource_id = .str REST_ALL → q.agency_id = .str REST_ALL →
      q.context = DataContext.ALL →
      q.getShortV2Path ver = "/data" ∧
      ∃ qs, q.createFullQuery ver =
        Except.ok ("/data" ++ "/" ++ "*" ++ "/" ++ "*" ++ "/" ++ "*" ++
          "/" ++ "*" ++ "/" ++ "*" ++ "?" ++ qs)) ∧
    (∀ (q : DataQuery) (ver : ApiVersion), ApiVersion.V2_0_0 ≤ ver →
      q.key ≠ .str REST_ALL → q.attributes ≠ .str "dsd" →
      q.measures ≠ .str "all" → q.include_history = true →
      q.createShortQuery ver = q.createFullQuery ver) := by
  refine ⟨?_, ?_, ?_, ?_, ?_, ?_, ?_⟩
  · intro q ver hver hk
    simp only [DataQuery.createFullQuery, DataQuery.getV2ContextId,
      DataQuery.getShortV2Path, if_pos hver, ne_eq, hk, not_false_iff,
      if_true, slash_append_eq_empty, true_or, or_true,
      String.append_assoc]
    exact ⟨_, rfl⟩
  · intro q ver hver hk hv
    simp only [DataQuery.createFullQuery, DataQuery.getV2ContextId,
      DataQuery.getShortV2Path, if_pos hver, ne_eq, hk, hv,
      toKws_default_v2 hver, eq_self_iff_true, not_true, if_false,
      not_false_iff, if_true, slash_append_eq_empty, true_or, or_true,
      false_or, or_false, strAppend_empty, String.append_assoc]
    exact ⟨_, rfl⟩
  · intro q ver hver hk hv hres
    simp only [DataQuery.createFullQuery, DataQuery.getV2ContextId,
      DataQuery.getShortV2Path, if_pos hver, ne_eq, hk, hv, hres,
      toKws_default_v2 hver, eq_self_iff_true, not_true, if_false,
      not_false_iff, if_true, slash_append_eq_empty, true_or, or_true,
      false_or, or_false, strAppend_empty, String.append_assoc]
    exact ⟨_, rfl⟩
  · intro q ver hver hk hv hres hag
    simp only [DataQuery.createFullQuery, DataQuery.getV2ContextId,
      DataQuery.getShortV2Path, if_pos hver, ne_eq, hk, hv, hres, hag,
      toKws_default_v2 hver, eq_self_iff_true, not_true, if_false,
      not_false_iff, if_true, slash_append_eq_empty, true_or, or_true,
      false_or, or_false, strAppend_empty, String.append_assoc]
    exact ⟨_, rfl⟩
  · intro q ver hver hk hv hres hag hctx
    simp only [DataQuery.createFullQuery, DataQuery.getV2ContextId,
      DataQuery.getShortV2Path, if_pos hver, ne_eq, hk, hv, hres, hag,
      hctx, toKws_default_v2 hver, eq_self_iff_true, not_true, if_false,
      not_false_iff, if_true, slash_append_eq_empty, true_or, or_true,
      false_or, or_false, strAppend_empty, String.append_assoc]
    exact ⟨_, rfl⟩
  · intro q ver hver hk hv hres hag hctx
    constructor
    · simp only [DataQuery.getShortV2Path, ne_eq, hk, hv, hres, hag,
        hctx, eq_self_iff_true, not_true, if_false, false_or, or_false,
        strAppend_empty]
    · simp only [DataQuery.createFullQuery, DataQuery.getV2ContextId,
        if_pos hver, hk, hv, hres, hag, hctx, toKws_default_v2 hver,
        DataContext.value, String.append_assoc]
      exact ⟨_, rfl⟩
  · intro q ver hver hk hat hme hih
    simp only [DataQuery.createShortQuery, DataQuery.createFullQuery,
      DataQuery.getShortV2Path, DataQuery.getShortV2Qs,
      DataQuery.getV2ContextId, if_pos hver, hih, ne_eq, hk, hat, hme,
      not_false_iff, if_true, slash_append_eq_empty, true_or, or_true,
      strEmpty_append, attributesTail_ne_empty, measuresTail_ne_empty,
      historyTail_ne_empty, pyBoolLower, String.append_assoc]
    rfl

/-- Witness for `c9_short_omits_defaults`: with only the key non-default
the short path is `/data/*/*/*/*/A.USD` and prefixes the full URL; the
all-default query shortens to `/data` while its full path is five `*`
segments; and a query with non-default key, attributes, measures and
include-history (all other fields at defaults) renders identically in
short and full mode. -/
theorem c9_short_omits_defaults_witness :
    (∃ qs, DataQuery.createFullQuery { key := StrOrSeq.str "A.USD" }
      ApiVersion.V2_0_0 =
      Except.ok (DataQuery.getShortV2Path { key := StrOrSeq.str "A.USD" }
        ApiVersion.V2_0_0 ++ "?" ++ qs)) ∧
    (DataQuery.getShortV2Path {} ApiVersion.V2_0_0 = "/data" ∧
     ∃ qs, DataQuery.createFullQuery {} ApiVersion.V2_0_0 =
       Except.ok ("/data" ++ "/" ++ "*" ++ "/" ++ "*" ++ "/" ++ "*" ++
         "/" ++ "*" ++ "/" ++ "*" ++ "?" ++ qs)) ∧
    DataQuery.createShortQuery
      { key := StrOrSeq.str "A.USD", attributes := StrOrSeq.str "msd",
        measures := StrOrSeq.str "none", include_history := true }
      ApiVersion.V2_0_0 =
    DataQuery.createFullQuery
      { key := StrOrSeq.str "A.USD", attributes := StrOrSeq.str "msd",
        measures := StrOrSeq.str "none", include_history := true }
      ApiVersion.V2_0_0 :=
  ⟨c9_short_omits_defaults.1 { key := StrOrSeq.str "A.USD" }
      ApiVersion.V2_0_0 (by decide) (by decide),
   c9_short_omits_defaults.2.2.2.2.2.1 {} ApiVersion.V2_0_0 (by decide)
      rfl rfl rfl rfl rfl,
   c9_short_omits_defaults.2.2.2.2.2.2
      { key := StrOrSeq.str "A.USD", attributes := StrOrSeq.str "msd",
        measures := StrOrSeq.str "none", include_history := true }
      ApiVersion.V2_0_0 (by decide) (by decide) (by decide) (by decide)
      rfl⟩
